import Mathlib

/-!
# Verification of the hdmimatrix request/response engine

Shallow embedding of `hdmimatrix/hdmimatrix.py`: the connection managers,
transaction executors and response readers of the two variants
(`HDMIMatrix`, synchronous sockets; `AsyncHDMIMatrix`, asyncio streams).

Time is modelled in integer milliseconds.  The environment (what the TCP
transport does at each interaction point) is made explicit as oracle data:
a list of read events for the response readers, connect-attempt outcomes
for `connect()`, and optional transport errors for the write steps.
-/

namespace HdmiMatrix

/-! ## Module constants (from the top of `hdmimatrix.py`, in milliseconds) -/

/-- `SOCKET_TIMEOUT = 5.0` — the configured socket timeout (ms). -/
def SOCKET_TIMEOUT_MS : Nat := 5000

/-- `SOCKET_END_OF_DATA_TIMEOUT = 0.5` — inactivity gap ending a response (ms). -/
def SOCKET_END_OF_DATA_TIMEOUT_MS : Nat := 500

/-- `SOCKET_RECEIVE_DELAY = 0.05` — sleep between read attempts (ms). -/
def SOCKET_RECEIVE_DELAY_MS : Nat := 50

/-- The per-attempt read timeout used inside `_read_response` (`0.1` s, ms). -/
def READ_ATTEMPT_TIMEOUT_MS : Nat := 100

/-- The default overall `_read_response` timeout (`timeout: float = 2.0`, ms). -/
def READ_OVERALL_TIMEOUT_MS : Nat := 2000

/-- Bound on the greeting read in sync `connect()`: the socket carries
`settimeout(SOCKET_TIMEOUT)`, so `recv` blocks up to 5000 ms. -/
def syncGreetingReadTimeoutMs : Nat := SOCKET_TIMEOUT_MS

/-- Bound on the greeting read in async `connect()`:
`asyncio.wait_for(self.reader.read(...), timeout=1.0)`. -/
def asyncGreetingReadTimeoutMs : Nat := 1000

/-! ## Bytes and ASCII decoding -/

/-- `data.decode('ascii', errors='ignore')`: bytes `< 128` become characters,
bytes `≥ 128` are dropped. -/
def decodeAsciiIgnore (bs : List Nat) : String :=
  String.mk ((bs.filter (fun b => b < 128)).map Char.ofNat)

/-- Byte values of a pure-ASCII string (used to build concrete chunks). -/
def asciiBytes (s : String) : List Nat :=
  s.toList.map Char.toNat

/-- The characters Python's `str.strip()` removes on ASCII data:
`' '`, `'\t'`, `'\n'`, `'\r'`, `'\x0b'`, `'\x0c'`. -/
def isStripWhitespace (c : Char) : Bool :=
  c = ' ' || c = '\t' || c = '\n' || c = '\r' || c = '\x0b' || c = '\x0c'

/-- Python `s.strip()`: drop whitespace from both ends. -/
def pyStrip (s : String) : String :=
  String.mk (((s.toList.dropWhile isStripWhitespace).reverse.dropWhile
    isStripWhitespace).reverse)

/-! ## Response reader (`_read_response`, both variants)

One loop iteration performs one read attempt on the transport; a
`ReadEvent` is what that attempt observes:

* `chunk t bs` — the transport delivered the (nonempty) byte chunk `bs`,
  the attempt taking `t` ms (`t ≤ READ_ATTEMPT_TIMEOUT_MS`);
* `closed t` — the read returned zero bytes after `t` ms (the peer closed
  the stream cleanly; distinct from a timeout);
* `timedOut` — no data within the per-attempt timeout
  (`socket.timeout` / `asyncio.TimeoutError`), costing 100 ms;
* `readError` — the read raised some other exception.

An exhausted event list means no further data ever arrives: the real loop
then keeps timing out and exits either through the inactivity break or the
overall deadline, in both cases returning the accumulated parts, so the
model returns them directly (`finish`/`attempts` are only meaningful while
the schedule is not exhausted).
-/

inductive ReadEvent : Type where
  | chunk (t : Nat) (bs : List Nat)
  | closed (t : Nat)
  | timedOut
  | readError
  deriving DecidableEq, Repr

/-- `true` when the event delivers no data chunk. -/
def ReadEvent.noData : ReadEvent → Bool
  | .chunk _ _ => false
  | _ => true

/-- Result of one `_read_response` call: the returned string, the elapsed
time (ms) at which the call returned, and how many read attempts it made. -/
structure ReadResult : Type where
  response : String
  finish : Nat
  attempts : Nat
  deriving DecidableEq, Repr

/-- Join the accumulated parts and `strip()` the result. -/
def finishRead (parts : List String) (now attempts : Nat) : ReadResult :=
  ⟨pyStrip (String.join parts), now, attempts⟩

/-- The read loop of the synchronous `HDMIMatrix._read_response`
(lines 322–347): on zero bytes it behaves like a timeout, breaking only
when data was already received and the inactivity gap is exceeded,
otherwise sleeping `SOCKET_RECEIVE_DELAY` and retrying. -/
def syncReadLoop (elapsed lastData : Nat) (parts : List String) (attempts : Nat) :
    List ReadEvent → ReadResult
  | [] => finishRead parts elapsed attempts
  | e :: rest =>
    if elapsed < READ_OVERALL_TIMEOUT_MS then
      match e with
      | .chunk t bs =>
          syncReadLoop (elapsed + t) (elapsed + t)
            (parts ++ [decodeAsciiIgnore bs]) (attempts + 1) rest
      | .closed t =>
          if parts ≠ [] ∧ elapsed + t - lastData > SOCKET_END_OF_DATA_TIMEOUT_MS then
            finishRead parts (elapsed + t) (attempts + 1)
          else
            syncReadLoop (elapsed + t + SOCKET_RECEIVE_DELAY_MS) lastData parts
              (attempts + 1) rest
      | .timedOut =>
          if parts ≠ [] ∧
              elapsed + READ_ATTEMPT_TIMEOUT_MS - lastData > SOCKET_END_OF_DATA_TIMEOUT_MS then
            finishRead parts (elapsed + READ_ATTEMPT_TIMEOUT_MS) (attempts + 1)
          else
            syncReadLoop (elapsed + READ_ATTEMPT_TIMEOUT_MS + SOCKET_RECEIVE_DELAY_MS)
              lastData parts (attempts + 1) rest
      | .readError => finishRead parts elapsed (attempts + 1)
    else finishRead parts elapsed attempts

/-- The read loop of `AsyncHDMIMatrix._read_response` (lines 520–546):
identical to the sync loop except that a zero-byte read (`closed`) breaks
immediately (`else: # Connection closed; break`). -/
def asyncReadLoop (elapsed lastData : Nat) (parts : List String) (attempts : Nat) :
    List ReadEvent → ReadResult
  | [] => finishRead parts elapsed attempts
  | e :: rest =>
    if elapsed < READ_OVERALL_TIMEOUT_MS then
      match e with
      | .chunk t bs =>
          asyncReadLoop (elapsed + t) (elapsed + t)
            (parts ++ [decodeAsciiIgnore bs]) (attempts + 1) rest
      | .closed t =>
          finishRead parts (elapsed + t) (attempts + 1)
      | .timedOut =>
          if parts ≠ [] ∧
              elapsed + READ_ATTEMPT_TIMEOUT_MS - lastData > SOCKET_END_OF_DATA_TIMEOUT_MS then
            finishRead parts (elapsed + READ_ATTEMPT_TIMEOUT_MS) (attempts + 1)
          else
            asyncReadLoop (elapsed + READ_ATTEMPT_TIMEOUT_MS + SOCKET_RECEIVE_DELAY_MS)
              lastData parts (attempts + 1) rest
      | .readError => finishRead parts elapsed (attempts + 1)
    else finishRead parts elapsed attempts

/-- A stored transport handle; `closing` is what the transport itself
reports (`writer.is_closing()` for the async stream). -/
structure Handle : Type where
  closing : Bool
  deriving DecidableEq, Repr

/-- `HDMIMatrix._read_response`: `if not self.connection: return ""`,
otherwise run the read loop from time 0 with an empty buffer. -/
def readResponseSync (conn : Option Handle) (events : List ReadEvent) : ReadResult :=
  match conn with
  | none => ⟨"", 0, 0⟩
  | some _ => syncReadLoop 0 0 [] 0 events

/-- `AsyncHDMIMatrix._read_response`: `if not self.reader: return ""`,
otherwise run the async read loop from time 0 with an empty buffer. -/
def readResponseAsync (reader : Option Handle) (events : List ReadEvent) : ReadResult :=
  match reader with
  | none => ⟨"", 0, 0⟩
  | some _ => asyncReadLoop 0 0 [] 0 events

/-! ## Connection state

The mutable per-instance state of each variant.  The immutable endpoint
configuration (host, port) plays no role in the verified behaviour; the
`auto_reconnect` flag is kept in the state record for convenience (the
code never mutates it). -/

/-- State of the synchronous `HDMIMatrix`: `self.connection` only. -/
structure SyncState : Type where
  connection : Option Handle
  auto_reconnect : Bool
  deriving DecidableEq, Repr

/-- State of `AsyncHDMIMatrix`: `self.reader`, `self.writer`,
`self._connection_lock`. -/
structure AsyncState : Type where
  reader : Option Handle
  writer : Option Handle
  connection_lock : Option Unit
  auto_reconnect : Bool
  deriving DecidableEq, Repr

/-- `HDMIMatrix.is_connected` (line 207): `self.connection is not None` —
only the presence of the stored handle is checked. -/
def SyncState.is_connected (s : SyncState) : Bool :=
  s.connection.isSome

/-- `AsyncHDMIMatrix.is_connected` (line 388):
`self.writer is not None and not self.writer.is_closing()`. -/
def AsyncState.is_connected (a : AsyncState) : Bool :=
  match a.writer with
  | some w => !w.closing
  | none => false

/-- What the spec's words ask of `is_connected` for either variant:
a transport handle is stored AND the transport reports it is not already
closing/closed.  (Spec-side definition, to be compared with the two
source-side `is_connected` above.) -/
def specConnected (h : Option Handle) : Bool :=
  match h with
  | some hd => !hd.closing
  | none => false

/-! ## connect()

A connect attempt interacts with the environment twice: the TCP connect
itself, then the opportunistic greeting read.  The outcome of a call is
summarised by one oracle value. -/

/-- Environment outcome for sync `HDMIMatrix.connect` (lines 212–231):
* `connectFails` — socket creation/`connect((host, port))` raises;
* `greeting bs` — TCP connect succeeds and `recv` returns `bs`
  (possibly `b""` on immediate clean close);
* `greetingTimeout` — TCP connect succeeds but the device sends nothing,
  so the greeting `recv` raises `socket.timeout` after `SOCKET_TIMEOUT`;
* `greetingError` — the greeting `recv` raises another `OSError`. -/
inductive SyncConnectEnv : Type where
  | connectFails
  | greeting (bs : List Nat)
  | greetingTimeout
  | greetingError
  deriving DecidableEq, Repr

/-- `HDMIMatrix.connect` (lines 212–231).  A new socket is stored, TCP
connect and a greeting `recv` are attempted; the single `except` block
catches every failure — including `socket.timeout` from the greeting
read — closes the partially-open socket, clears `self.connection` and
returns `False`.  Only when the greeting `recv` returns do we reach
`return True`. -/
def syncConnect (s : SyncState) (env : SyncConnectEnv) : SyncState × Bool :=
  match env with
  | .greeting _ => (⟨some ⟨false⟩, s.auto_reconnect⟩, true)
  | _ => (⟨none, s.auto_reconnect⟩, false)

/-- Environment outcome for `AsyncHDMIMatrix.connect` (lines 393–417):
* `openFails` — `asyncio.open_connection` raises (refused/timeout/…);
* `greeting bs` — streams open and the greeting read returns `bs`;
* `greetingTimeout` — `asyncio.wait_for(..., timeout=1.0)` raises
  `TimeoutError`, caught by the inner `except` ("No welcome data, that's
  fine");
* `greetingError` — the greeting read raises a different exception
  (e.g. `ConnectionResetError`), caught only by the outer `except`. -/
inductive AsyncConnectEnv : Type where
  | openFails
  | greeting (bs : List Nat)
  | greetingTimeout
  | greetingError
  deriving DecidableEq, Repr

/-- `AsyncHDMIMatrix.connect` (lines 393–417).  On `openFails` nothing was
assigned, so the previous state is kept and `False` returned.  Otherwise
the new reader/writer pair and a fresh `asyncio.Lock` are stored; a
greeting timeout is tolerated (`return True`), while any other greeting
error reaches the outer `except`, which returns `False` *without closing
or clearing the freshly stored streams*. -/
def asyncConnect (a : AsyncState) (env : AsyncConnectEnv) : AsyncState × Bool :=
  match env with
  | .openFails => (a, false)
  | .greeting _ => (⟨some ⟨false⟩, some ⟨false⟩, some (), a.auto_reconnect⟩, true)
  | .greetingTimeout => (⟨some ⟨false⟩, some ⟨false⟩, some (), a.auto_reconnect⟩, true)
  | .greetingError => (⟨some ⟨false⟩, some ⟨false⟩, some (), a.auto_reconnect⟩, false)

/-! ## disconnect() -/

/-- `HDMIMatrix.disconnect` (lines 233–238): if a connection is stored,
close it and clear it; otherwise do nothing. -/
def syncDisconnect (s : SyncState) : SyncState :=
  match s.connection with
  | some _ => ⟨none, s.auto_reconnect⟩
  | none => s

/-- `AsyncHDMIMatrix.disconnect` (lines 419–427): if a writer is stored,
close it, await `wait_closed`, and clear writer, reader and the lock;
otherwise do nothing. -/
def asyncDisconnect (a : AsyncState) : AsyncState :=
  match a.writer with
  | some _ => ⟨none, none, none, a.auto_reconnect⟩
  | none => a

/-! ## Transaction executor (`_process_request`, both variants)

The call is driven by an environment record: the outcome of the
pre-request `connect()` (used only when not connected), whether each write
raises a transport error (`OSError` / timeout), the read-event schedules
for the two possible `_read_response` calls, and the outcome of the
reconnect attempted from the error handler.

Errors surfacing from a call: -/

/-- How a `_process_request` call can fail.  Transport errors are
identified by an abstract error id. -/
inductive PErr : Type where
  /-- `RuntimeError("Not connected and auto-reconnect failed.")` -/
  | notConnectedAutoFailed
  /-- `RuntimeError("Not connected. Call connect() first.")` -/
  | notConnected
  /-- `RuntimeError(f"Connection lost during request: {e}") from e` -/
  | connectionLost (cause : Nat)
  /-- a transport exception escaping `_process_request` unwrapped -/
  | transport (e : Nat)
  deriving DecidableEq, Repr

/-- `true` exactly on the `ConnectionLost` wrapper error. -/
def PErr.isConnectionLost : PErr → Bool
  | .connectionLost _ => true
  | _ => false

/-- Observable steps of one `_process_request` call, in order. -/
inductive TEvent : Type where
  /-- a `connect()` call and the boolean it returned -/
  | connectCall (ok : Bool)
  /-- a write of the request payload; `ok = false` means it raised -/
  | writeCall (request : String) (ok : Bool)
  /-- a `disconnect()` call from the error handler -/
  | disconnectCall
  /-- a `_read_response()` call -/
  | readCall
  deriving DecidableEq, Repr

/-- Number of write attempts in a trace. -/
def writeCount (tr : List TEvent) : Nat :=
  (tr.filter (fun e => match e with | .writeCall _ _ => true | _ => false)).length

/-- Number of `connect()` calls in a trace. -/
def connectCount (tr : List TEvent) : Nat :=
  (tr.filter (fun e => match e with | .connectCall _ => true | _ => false)).length

/-- Environment of one sync `_process_request` call. -/
structure SyncTransactionEnv : Type where
  /-- outcome of the pre-request `connect()` (only used when not connected) -/
  preConnect : SyncConnectEnv
  /-- `none`: the first `send` succeeds; `some e`: it raises error `e` -/
  write1 : Option Nat
  /-- read-event schedule for the first `_read_response` -/
  read1 : List ReadEvent
  /-- outcome of the `connect()` attempted from the error handler -/
  reConnect : SyncConnectEnv
  /-- `none`: the retried `send` succeeds; `some e`: it raises error `e` -/
  write2 : Option Nat
  /-- read-event schedule for the retried `_read_response` -/
  read2 : List ReadEvent

/-- The `try`/`except` body of sync `_process_request` (lines 282–296),
entered with a connection believed live.  `_read_response` swallows every
exception internally (its own `try` blocks return partial data or `""`),
so only the `send` calls can raise here.  On a first-write error: log,
`disconnect()`, and — when auto-reconnect is on and `connect()` succeeds —
retry send+read once; the retried `send` is *not* inside any further
`try`, so its exception escapes raw.  When the reconnect fails or
auto-reconnect is off, raise `ConnectionLost` wrapping the first error. -/
def syncTransactionBody (s1 : SyncState) (req : String) (env : SyncTransactionEnv)
    (tr : List TEvent) : (Except PErr String) × SyncState × List TEvent :=
  match env.write1 with
  | none =>
      (.ok (readResponseSync s1.connection env.read1).response, s1,
        tr ++ [.writeCall req true, .readCall])
  | some e =>
      let s2 := syncDisconnect s1
      let tr2 := tr ++ [.writeCall req false, .disconnectCall]
      if s2.auto_reconnect then
        match syncConnect s2 env.reConnect with
        | (s3, true) =>
            match env.write2 with
            | none =>
                (.ok (readResponseSync s3.connection env.read2).response, s3,
                  tr2 ++ [.connectCall true, .writeCall req true, .readCall])
            | some e2 =>
                (.error (.transport e2), s3,
                  tr2 ++ [.connectCall true, .writeCall req false])
        | (s3, false) =>
            (.error (.connectionLost e), s3, tr2 ++ [.connectCall false])
      else
        (.error (.connectionLost e), s2, tr2)

/-- Sync `HDMIMatrix._process_request` (lines 273–296): the not-connected
pre-step (auto-reconnect or immediate `RuntimeError`), then the
transaction body. -/
def syncProcessRequest (s0 : SyncState) (req : String) (env : SyncTransactionEnv) :
    (Except PErr String) × SyncState × List TEvent :=
  if s0.is_connected then
    syncTransactionBody s0 req env []
  else if s0.auto_reconnect then
    match syncConnect s0 env.preConnect with
    | (s1, true) => syncTransactionBody s1 req env [.connectCall true]
    | (s1, false) => (.error .notConnectedAutoFailed, s1, [.connectCall false])
  else
    (.error .notConnected, s0, [])

/-- Environment of one async `_process_request` call. -/
structure AsyncTransactionEnv : Type where
  /-- outcome of the pre-request `connect()` (only used when not connected) -/
  preConnect : AsyncConnectEnv
  /-- `none`: the first `write`+`drain` succeeds; `some e`: it raises `e` -/
  write1 : Option Nat
  /-- read-event schedule for the first `_read_response` -/
  read1 : List ReadEvent
  /-- outcome of the `connect()` attempted from the error handler -/
  reConnect : AsyncConnectEnv
  /-- `none`: the retried `write`+`drain` succeeds; `some e`: it raises `e` -/
  write2 : Option Nat
  /-- read-event schedule for the retried `_read_response` -/
  read2 : List ReadEvent

/-- The body of async `_process_request` run under the connection lock
(lines 483–500); same failure policy as the sync body.  The async
`_read_response` likewise swallows all its exceptions, so only
`write`/`drain` can raise. -/
def asyncTransactionBody (a1 : AsyncState) (req : String) (env : AsyncTransactionEnv)
    (tr : List TEvent) : (Except PErr String) × AsyncState × List TEvent :=
  match env.write1 with
  | none =>
      (.ok (readResponseAsync a1.reader env.read1).response, a1,
        tr ++ [.writeCall req true, .readCall])
  | some e =>
      let a2 := asyncDisconnect a1
      let tr2 := tr ++ [.writeCall req false, .disconnectCall]
      if a2.auto_reconnect then
        match asyncConnect a2 env.reConnect with
        | (a3, true) =>
            match env.write2 with
            | none =>
                (.ok (readResponseAsync a3.reader env.read2).response, a3,
                  tr2 ++ [.connectCall true, .writeCall req true, .readCall])
            | some e2 =>
                (.error (.transport e2), a3,
                  tr2 ++ [.connectCall true, .writeCall req false])
        | (a3, false) =>
            (.error (.connectionLost e), a3, tr2 ++ [.connectCall false])
      else
        (.error (.connectionLost e), a2, tr2)

/-- `AsyncHDMIMatrix._process_request` (lines 471–500): the not-connected
pre-step, the `if not self._connection_lock` guard, then the body under
the lock. -/
def asyncProcessRequest (a0 : AsyncState) (req : String) (env : AsyncTransactionEnv) :
    (Except PErr String) × AsyncState × List TEvent :=
  if a0.is_connected then
    if a0.connection_lock.isSome then
      asyncTransactionBody a0 req env []
    else
      (.error .notConnected, a0, [])
  else if a0.auto_reconnect then
    match asyncConnect a0 env.preConnect with
    | (a1, true) =>
        if a1.connection_lock.isSome then
          asyncTransactionBody a1 req env [.connectCall true]
        else
          (.error .notConnected, a1, [.connectCall true])
    | (a1, false) => (.error .notConnectedAutoFailed, a1, [.connectCall false])
  else
    (.error .notConnected, a0, [])

/-! ## Concurrent transactions

To talk about two logically concurrent `send()` calls we give each call's
transaction the sequence of atomic connection-touching actions it performs
and consider all interleavings.  Lock acquire/release actions obey the
usual mutual-exclusion discipline (this is the semantics `asyncio.Lock`
guarantees); any interleaving the runtime can produce is a merge of the
two per-task sequences that respects that discipline. -/

/-- An atomic action of task `t` on the shared connection. -/
inductive LAct : Type where
  | acq (t : Nat)
  | rel (t : Nat)
  | write (t : Nat)
  | read (t : Nat)
  deriving DecidableEq, Repr

/-- All order-preserving merges of two action sequences, with enough fuel
(structural recursion on the fuel keeps the function kernel-computable). -/
def mergesFuel : Nat → List LAct → List LAct → List (List LAct)
  | 0, xs, ys => [xs ++ ys]
  | _ + 1, [], ys => [ys]
  | _ + 1, x :: xs, [] => [x :: xs]
  | n + 1, x :: xs, y :: ys =>
      (mergesFuel n xs (y :: ys)).map (fun m => x :: m) ++
        (mergesFuel n (x :: xs) ys).map (fun m => y :: m)

/-- All interleavings (order-preserving merges) of two action sequences. -/
def merges (xs ys : List LAct) : List (List LAct) :=
  mergesFuel (xs.length + ys.length) xs ys

/-- Mutual-exclusion discipline: `acq` only when free, `rel` only by the
holder.  `holder` is the task currently holding the lock, if any. -/
def lockValidAux (holder : Option Nat) : List LAct → Bool
  | [] => true
  | a :: rest =>
      match a, holder with
      | .acq t, none => lockValidAux (some t) rest
      | .acq _, some _ => false
      | .rel t, some h => h = t && lockValidAux none rest
      | .rel _, none => false
      | .write _, h => lockValidAux h rest
      | .read _, h => lockValidAux h rest

/-- A trace the lock semantics can actually produce. -/
def lockValid (tr : List LAct) : Bool :=
  lockValidAux none tr

/-- The two transactions do not interleave: one task's write is observed
strictly after the other task's complete read. -/
def serialized (tr : List LAct) : Bool :=
  tr.indexOf (.read 1) < tr.indexOf (.write 2) ||
    tr.indexOf (.read 2) < tr.indexOf (.write 1)

/-- Connection actions of one async `_process_request` transaction
(lines 483–488): `async with self._connection_lock:` wraps the write and
the read as one unit. -/
def asyncSendActions (t : Nat) : List LAct :=
  [.acq t, .write t, .read t, .rel t]

/-- Connection actions of one sync `_process_request` transaction
(lines 282–285): the write and the read, with no lock — `HDMIMatrix`
holds no mutual-exclusion primitive at all. -/
def syncSendActions (t : Nat) : List LAct :=
  [.write t, .read t]

/-- The concrete C5 schedule: chunk `"Part1 "` delivered at t = 50 ms,
chunk `"Part2\r\n"` (here with one undecodable byte `0xC8` appended) at
t = 150 ms, then silence. -/
def c5schedule : List ReadEvent :=
  [.chunk 50 (asciiBytes "Part1 "), .chunk 100 (asciiBytes "Part2\r\n" ++ [200])]
    ++ List.replicate 5 .timedOut

/-- The concrete C3 schedule: chunk `"Partial"` at t = 50 ms, a zero-byte
read (clean close) at t = 60 ms, and the stream reporting closed on every
later read attempt. -/
def c3schedule : List ReadEvent :=
  [.chunk 50 (asciiBytes "Partial"), .closed 10] ++ List.replicate 10 (.closed 50)

/-- A sync transaction environment exercising the failing-retry path: the
first write raises transport error 7, the reconnect succeeds, and the
retried write raises transport error 9. -/
def retryFailEnvSync : SyncTransactionEnv :=
  ⟨.connectFails, some 7, [], .greeting [], some 9, []⟩

/-- The async counterpart of `retryFailEnvSync`. -/
def retryFailEnvAsync : AsyncTransactionEnv :=
  ⟨.openFails, some 7, [], .greeting [], some 9, []⟩

/-! ## Helper lemmas -/

/-- An empty buffer joins and trims to the empty string. -/
theorem finishRead_nil_response (now attempts : Nat) :
    (finishRead [] now attempts).response = "" := by
  have h : pyStrip (String.join []) = "" := by decide
  simp [finishRead, h]

/-- The sync read loop never produces data from a schedule without chunks. -/
theorem syncReadLoop_no_chunk (events : List ReadEvent)
    (h : events.all ReadEvent.noData = true) :
    ∀ elapsed lastData attempts,
      (syncReadLoop elapsed lastData [] attempts events).response = "" := by
  induction events with
  | nil => intro e l a; exact finishRead_nil_response e a
  | cons ev rest ih =>
      intro e l a
      simp only [List.all_cons, Bool.and_eq_true] at h
      cases ev with
      | chunk t bs => simp [ReadEvent.noData] at h
      | closed t =>
          simp only [syncReadLoop]
          split
          · rw [if_neg (by simp)]
            exact ih h.2 _ _ _
          · exact finishRead_nil_response _ _
      | timedOut =>
          simp only [syncReadLoop]
          split
          · rw [if_neg (by simp)]
            exact ih h.2 _ _ _
          · exact finishRead_nil_response _ _
      | readError =>
          simp only [syncReadLoop]
          split
          · exact finishRead_nil_response _ _
          · exact finishRead_nil_response _ _

/-- The async read loop never produces data from a schedule without chunks. -/
theorem asyncReadLoop_no_chunk (events : List ReadEvent)
    (h : events.all ReadEvent.noData = true) :
    ∀ elapsed lastData attempts,
      (asyncReadLoop elapsed lastData [] attempts events).response = "" := by
  induction events with
  | nil => intro e l a; exact finishRead_nil_response e a
  | cons ev rest ih =>
      intro e l a
      simp only [List.all_cons, Bool.and_eq_true] at h
      cases ev with
      | chunk t bs => simp [ReadEvent.noData] at h
      | closed t =>
          simp only [asyncReadLoop]
          split
          · exact finishRead_nil_response _ _
          · exact finishRead_nil_response _ _
      | timedOut =>
          simp only [asyncReadLoop]
          split
          · rw [if_neg (by simp)]
            exact ih h.2 _ _ _
          · exact finishRead_nil_response _ _
      | readError =>
          simp only [asyncReadLoop]
          split
          · exact finishRead_nil_response _ _
          · exact finishRead_nil_response _ _

/-! ## Claims -/

/-- C10: For every state of either variant, `disconnect()` is idempotent:
when already disconnected (no handle stored) it never fails and is a
no-op, and after any `disconnect()` call `is_connected` is false and the
stored connection state (the handle, and for the async variant also the
reader and the mutex) is cleared. -/
theorem c10_disconnect_idempotent :
    (∀ s : SyncState, syncDisconnect (syncDisconnect s) = syncDisconnect s)
    ∧ (∀ s : SyncState, (syncDisconnect s).is_connected = false)
    ∧ (∀ s : SyncState, (syncDisconnect s).connection = none)
    ∧ (∀ b : Bool, syncDisconnect ⟨none, b⟩ = ⟨none, b⟩)
    ∧ (∀ a : AsyncState, asyncDisconnect (asyncDisconnect a) = asyncDisconnect a)
    ∧ (∀ a : AsyncState, (asyncDisconnect a).is_connected = false)
    ∧ (∀ a : AsyncState, (asyncDisconnect a).writer = none)
    ∧ (∀ (h : Handle) (r : Option Handle) (l : Option Unit) (b : Bool),
        asyncDisconnect ⟨r, some h, l, b⟩ = ⟨none, none, none, b⟩)
    ∧ (∀ (r : Option Handle) (l : Option Unit) (b : Bool),
        asyncDisconnect ⟨r, none, l, b⟩ = ⟨r, none, l, b⟩) := by
  refine ⟨?_, ?_, ?_, ?_, ?_, ?_, ?_, ?_, ?_⟩
  · intro s; cases s with
    | mk c b => cases c <;> rfl
  · intro s; cases s with
    | mk c b => cases c <;> rfl
  · intro s; cases s with
    | mk c b => cases c <;> rfl
  · intro b; rfl
  · intro a; cases a with
    | mk r w l b => cases w <;> rfl
  · intro a; cases a with
    | mk r w l b => cases w <;> rfl
  · intro a; cases a with
    | mk r w l b => cases w <;> rfl
  · intro h r l b; rfl
  · intro r l b; rfl

/-- C7 counterexample: a synchronous state holding a handle whose
transport reports it is closing.  The code's `is_connected` is `true`
(it checks only that a handle is stored), while the claimed
characterisation — handle stored AND transport not closing — is `false`. -/
theorem c7_claim_counterexample :
    SyncState.is_connected ⟨some ⟨true⟩, true⟩ = true
    ∧ specConnected (SyncState.connection ⟨some ⟨true⟩, true⟩) = false := by
  decide

/-- C7 (amended): only the async variant's `is_connected` equals the
claimed characterisation (handle stored AND transport not closing); the
sync variant's `is_connected` reflects merely the presence of a stored —
possibly dead — handle. -/
theorem c7_is_connected_amended :
    (∀ a : AsyncState, a.is_connected = specConnected a.writer)
    ∧ (∀ s : SyncState, s.is_connected = s.connection.isSome) := by
  constructor
  · intro a; cases a with
    | mk r w l b => cases w <;> rfl
  · intro s; rfl

/-- C6: in either variant, if no chunk ever arrives before the overall
timeout elapses (the schedule holds only timeouts, zero-byte reads or read
errors), `_read_response` returns the empty string and raises no error;
and calling the reader before any connection exists (no handle/reader
stored) returns the empty string immediately. -/
theorem c6_no_data_empty (hd : Handle) (events : List ReadEvent)
    (h : events.all ReadEvent.noData = true) :
    (readResponseSync (some hd) events).response = ""
    ∧ (readResponseAsync (some hd) events).response = ""
    ∧ (∀ evs : List ReadEvent, readResponseSync none evs = ⟨"", 0, 0⟩)
    ∧ (∀ evs : List ReadEvent, readResponseAsync none evs = ⟨"", 0, 0⟩) := by
  refine ⟨?_, ?_, fun evs => rfl, fun evs => rfl⟩
  · exact syncReadLoop_no_chunk events h 0 0 0
  · exact asyncReadLoop_no_chunk events h 0 0 0

/-- C6 witness: a concrete all-timeout schedule longer than the 2 s
overall deadline. -/
theorem c6_no_data_empty_witness :
    ((List.replicate 14 ReadEvent.timedOut).all ReadEvent.noData = true)
    ∧ ((readResponseSync (some ⟨false⟩) (List.replicate 14 ReadEvent.timedOut)).response = ""
      ∧ (readResponseAsync (some ⟨false⟩) (List.replicate 14 ReadEvent.timedOut)).response = ""
      ∧ (∀ evs : List ReadEvent, readResponseSync none evs = ⟨"", 0, 0⟩)
      ∧ (∀ evs : List ReadEvent, readResponseAsync none evs = ⟨"", 0, 0⟩)) :=
  ⟨by decide, c6_no_data_empty ⟨false⟩ (List.replicate 14 ReadEvent.timedOut) (by decide)⟩

/-- C5: in either variant, once at least one chunk was received and a read
attempt times out with the gap since the last chunk above the 0.5 s
inactivity threshold, the reader stops (the result does not depend on any
later events) and returns the chunks joined in arrival order and stripped;
chunks are decoded as ASCII with undecodable bytes dropped, as the
concrete `"Part1 " / "Part2\r\n"+0xC8` schedule shows. -/
theorem c5_inactivity_termination (parts : List String)
    (elapsed lastData attempts : Nat) (rest : List ReadEvent)
    (hne : parts ≠ []) (hel : elapsed < READ_OVERALL_TIMEOUT_MS)
    (hgap : elapsed + READ_ATTEMPT_TIMEOUT_MS - lastData
      > SOCKET_END_OF_DATA_TIMEOUT_MS) :
    syncReadLoop elapsed lastData parts attempts (.timedOut :: rest)
      = finishRead parts (elapsed + READ_ATTEMPT_TIMEOUT_MS) (attempts + 1)
    ∧ asyncReadLoop elapsed lastData parts attempts (.timedOut :: rest)
      = finishRead parts (elapsed + READ_ATTEMPT_TIMEOUT_MS) (attempts + 1)
    ∧ (readResponseSync (some ⟨false⟩) c5schedule).response = "Part1 Part2"
    ∧ (readResponseAsync (some ⟨false⟩) c5schedule).response = "Part1 Part2" := by
  refine ⟨?_, ?_, by decide, by decide⟩
  · simp only [syncReadLoop]
    rw [if_pos hel, if_pos ⟨hne, hgap⟩]
  · simp only [asyncReadLoop]
    rw [if_pos hel, if_pos ⟨hne, hgap⟩]

/-- C5 witness: the inactivity stop applied at a concrete loop state. -/
theorem c5_inactivity_termination_witness :
    ((["Part1 Part2"] : List String) ≠ []
      ∧ 600 < READ_OVERALL_TIMEOUT_MS
      ∧ 600 + READ_ATTEMPT_TIMEOUT_MS - 150 > SOCKET_END_OF_DATA_TIMEOUT_MS)
    ∧ (syncReadLoop 600 150 ["Part1 Part2"] 5 [.timedOut]
        = finishRead ["Part1 Part2"] (600 + READ_ATTEMPT_TIMEOUT_MS) (5 + 1)
      ∧ asyncReadLoop 600 150 ["Part1 Part2"] 5 [.timedOut]
        = finishRead ["Part1 Part2"] (600 + READ_ATTEMPT_TIMEOUT_MS) (5 + 1)
      ∧ (readResponseSync (some ⟨false⟩) c5schedule).response = "Part1 Part2"
      ∧ (readResponseAsync (some ⟨false⟩) c5schedule).response = "Part1 Part2") :=
  ⟨⟨by decide, by decide, by decide⟩,
    c5_inactivity_termination ["Part1 Part2"] 600 150 5 [.timedOut]
      (by decide) (by decide) (by decide)⟩

/-- C3 counterexample: on the `"Partial"`-then-clean-close schedule the
async reader stops at the zero-byte read (2 attempts, returning at 60 ms),
but the sync reader does *not* stop immediately: it keeps issuing reads
(7 attempts) until the 0.5 s inactivity gap has passed, returning only at
560 ms — refuting "in either variant the reader stops immediately". -/
theorem c3_claim_counterexample :
    readResponseAsync (some ⟨false⟩) c3schedule
      = ⟨"Partial", 60, 2⟩
    ∧ readResponseSync (some ⟨false⟩) c3schedule
      = ⟨"Partial", 560, 7⟩
    ∧ (readResponseSync (some ⟨false⟩) c3schedule).attempts ≠ 2
    ∧ (readResponseSync (some ⟨false⟩) c3schedule).finish ≠ 60 := by
  decide

/-- C3 (amended): only the async reader stops immediately on a zero-byte
read, returning the data accumulated so far; the sync reader treats a
zero-byte read exactly like a timed-out attempt — it returns the
accumulated data once data was received and the 0.5 s inactivity gap has
passed, and otherwise sleeps and keeps polling.  In neither variant is the
clean closure surfaced as an error from the reader. -/
theorem c3_zero_read_amended (parts : List String)
    (elapsed lastData attempts t : Nat) (rest : List ReadEvent)
    (hel : elapsed < READ_OVERALL_TIMEOUT_MS) :
    asyncReadLoop elapsed lastData parts attempts (.closed t :: rest)
      = finishRead parts (elapsed + t) (attempts + 1)
    ∧ (parts = [] ∨ elapsed + t - lastData ≤ SOCKET_END_OF_DATA_TIMEOUT_MS →
        syncReadLoop elapsed lastData parts attempts (.closed t :: rest)
          = syncReadLoop (elapsed + t + SOCKET_RECEIVE_DELAY_MS) lastData parts
              (attempts + 1) rest)
    ∧ (parts ≠ [] → elapsed + t - lastData > SOCKET_END_OF_DATA_TIMEOUT_MS →
        syncReadLoop elapsed lastData parts attempts (.closed t :: rest)
          = finishRead parts (elapsed + t) (attempts + 1)) := by
  refine ⟨?_, ?_, ?_⟩
  · simp only [asyncReadLoop]
    rw [if_pos hel]
  · intro hcase
    simp only [syncReadLoop]
    rw [if_pos hel, if_neg ?_]
    rcases hcase with hp | hgap
    · exact fun hc => hc.1 hp
    · exact fun hc => absurd hc.2 (not_lt.mpr hgap)
  · intro hne hgap
    simp only [syncReadLoop]
    rw [if_pos hel, if_pos ⟨hne, hgap⟩]

/-- C3 witness: the amended behaviour at a concrete loop state. -/
theorem c3_zero_read_amended_witness :
    (50 < READ_OVERALL_TIMEOUT_MS)
    ∧ (asyncReadLoop 50 50 ["Partial"] 1 [.closed 10]
        = finishRead ["Partial"] (50 + 10) (1 + 1)
      ∧ ((["Partial"] : List String) = []
          ∨ 50 + 10 - 50 ≤ SOCKET_END_OF_DATA_TIMEOUT_MS →
          syncReadLoop 50 50 ["Partial"] 1 [.closed 10]
            = syncReadLoop (50 + 10 + SOCKET_RECEIVE_DELAY_MS) 50 ["Partial"] (1 + 1) [])
      ∧ ((["Partial"] : List String) ≠ []
          → 50 + 10 - 50 > SOCKET_END_OF_DATA_TIMEOUT_MS →
          syncReadLoop 50 50 ["Partial"] 1 [.closed 10]
            = finishRead ["Partial"] (50 + 10) (1 + 1))) :=
  ⟨by decide, c3_zero_read_amended ["Partial"] 50 50 1 10 [] (by decide)⟩

/-- C4 counterexample: a synchronous connect whose TCP step succeeds but
whose device sends no greeting at all.  The greeting `recv` runs under the
5 s socket timeout — not a short bound of at most 1 s — and the resulting
`socket.timeout` lands in the failure handler, so `connect()` returns
`false` and leaves the instance disconnected, refuting "connect() still
returns true" and the ≤ 1 s bound. -/
theorem c4_claim_counterexample :
    syncConnect ⟨none, true⟩ .greetingTimeout = (⟨none, true⟩, false)
    ∧ ¬ syncGreetingReadTimeoutMs ≤ 1000 := by
  decide

/-- C4 (amended): the async variant behaves as claimed — its greeting read
is bounded by 1 s, the bytes are discarded, and a missing greeting
(timeout) still yields `true` with the instance connected.  The sync
variant stores the handle and returns `true` only when greeting data
actually arrives; its greeting read is bounded by the 5 s socket timeout,
and a silent device makes `connect()` return `false` with no handle
stored. -/
theorem c4_greeting_amended (a : AsyncState) (s : SyncState) (bs : List Nat) :
    (asyncConnect a .greetingTimeout).2 = true
    ∧ (asyncConnect a .greetingTimeout).1.is_connected = true
    ∧ (asyncConnect a (.greeting bs)).2 = true
    ∧ (asyncConnect a (.greeting bs)).1.is_connected = true
    ∧ asyncGreetingReadTimeoutMs ≤ 1000
    ∧ (syncConnect s (.greeting bs)).2 = true
    ∧ (syncConnect s (.greeting bs)).1.is_connected = true
    ∧ syncConnect s .greetingTimeout = (⟨none, s.auto_reconnect⟩, false)
    ∧ syncGreetingReadTimeoutMs = SOCKET_TIMEOUT_MS := by
  exact ⟨rfl, rfl, rfl, rfl, by decide, rfl, rfl, rfl, rfl⟩

/-- C8 counterexample: an async connect on a fresh instance that fails
during the greeting read with a non-timeout error (e.g. a connection
reset).  `connect()` returns `false`, yet the freshly opened writer stays
stored and un-closed, and `is_connected` is `true` afterwards — refuting
"no handle remains stored and afterwards is_connected is false". -/
theorem c8_claim_counterexample :
    (asyncConnect ⟨none, none, none, true⟩ .greetingError).2 = false
    ∧ (asyncConnect ⟨none, none, none, true⟩ .greetingError).1.is_connected = true
    ∧ (asyncConnect ⟨none, none, none, true⟩ .greetingError).1.writer
        = some ⟨false⟩ := by
  decide

/-- C8 (amended): every failing sync `connect()` closes the partial
socket, stores no handle and leaves `is_connected` false.  A failing async
`connect()` also returns `false` without throwing, but performs no
cleanup: a failure of `open_connection` itself merely keeps the previous
state (so a fresh instance stays disconnected), while an error during the
greeting read leaves the newly opened streams stored, un-closed and
reporting `is_connected` true. -/
theorem c8_connect_failure_amended (s : SyncState) (a : AsyncState)
    (env : SyncConnectEnv) (h : (syncConnect s env).2 = false) :
    (syncConnect s env).1.connection = none
    ∧ (syncConnect s env).1.is_connected = false
    ∧ (asyncConnect a .openFails) = (a, false)
    ∧ (asyncConnect a .greetingError).2 = false
    ∧ (asyncConnect a .greetingError).1.is_connected = true := by
  cases env with
  | greeting bs => simp [syncConnect] at h
  | connectFails => exact ⟨rfl, rfl, rfl, rfl, rfl⟩
  | greetingTimeout => exact ⟨rfl, rfl, rfl, rfl, rfl⟩
  | greetingError => exact ⟨rfl, rfl, rfl, rfl, rfl⟩

/-- C8 witness: the amended statement at a concrete refused sync connect
and a fresh async instance. -/
theorem c8_connect_failure_amended_witness :
    ((syncConnect ⟨some ⟨false⟩, true⟩ .connectFails).2 = false)
    ∧ ((syncConnect ⟨some ⟨false⟩, true⟩ .connectFails).1.connection = none
      ∧ (syncConnect ⟨some ⟨false⟩, true⟩ .connectFails).1.is_connected = false
      ∧ (asyncConnect ⟨none, none, none, true⟩ .openFails)
          = (⟨none, none, none, true⟩, false)
      ∧ (asyncConnect ⟨none, none, none, true⟩ .greetingError).2 = false
      ∧ (asyncConnect ⟨none, none, none, true⟩ .greetingError).1.is_connected
          = true) :=
  ⟨by decide,
    c8_connect_failure_amended ⟨some ⟨false⟩, true⟩ ⟨none, none, none, true⟩
      .connectFails (by decide)⟩

/-- `disconnect()` never changes the configured auto-reconnect flag. -/
theorem syncDisconnect_auto (s : SyncState) :
    (syncDisconnect s).auto_reconnect = s.auto_reconnect := by
  cases s with
  | mk c b => cases c <;> rfl

/-- `disconnect()` never changes the configured auto-reconnect flag. -/
theorem asyncDisconnect_auto (a : AsyncState) :
    (asyncDisconnect a).auto_reconnect = a.auto_reconnect := by
  cases a with
  | mk r w l b => cases w <;> rfl

/-- The sync transaction body always writes the payload first: its trace
extends the incoming trace with that write (succeeding iff `write1` holds
no error) followed by some suffix. -/
theorem syncTransactionBody_trace (s1 : SyncState) (req : String)
    (env : SyncTransactionEnv) (tr : List TEvent) :
    ∃ suffix, (syncTransactionBody s1 req env tr).2.2
      = tr ++ .writeCall req env.write1.isNone :: suffix := by
  cases hw : env.write1 with
  | none => exact ⟨[.readCall], by simp [syncTransactionBody, hw]⟩
  | some e =>
      simp only [syncTransactionBody, hw, Option.isNone_some]
      split
      · rcases hc : syncConnect (syncDisconnect s1) env.reConnect with ⟨s3, ok⟩
        cases ok with
        | true =>
            cases hw2 : env.write2 with
            | none =>
                exact ⟨[.disconnectCall, .connectCall true, .writeCall req true,
                  .readCall], by simp⟩
            | some e2 =>
                exact ⟨[.disconnectCall, .connectCall true, .writeCall req false],
                  by simp⟩
        | false => exact ⟨[.disconnectCall, .connectCall false], by simp⟩
      · exact ⟨[.disconnectCall], by simp⟩

/-- The async transaction body always writes the payload first: its trace
extends the incoming trace with that write (succeeding iff `write1` holds
no error) followed by some suffix. -/
theorem asyncTransactionBody_trace (a1 : AsyncState) (req : String)
    (env : AsyncTransactionEnv) (tr : List TEvent) :
    ∃ suffix, (asyncTransactionBody a1 req env tr).2.2
      = tr ++ .writeCall req env.write1.isNone :: suffix := by
  cases hw : env.write1 with
  | none => exact ⟨[.readCall], by simp [asyncTransactionBody, hw]⟩
  | some e =>
      simp only [asyncTransactionBody, hw, Option.isNone_some]
      split
      · rcases hc : asyncConnect (asyncDisconnect a1) env.reConnect with ⟨a3, ok⟩
        cases ok with
        | true =>
            cases hw2 : env.write2 with
            | none =>
                exact ⟨[.disconnectCall, .connectCall true, .writeCall req true,
                  .readCall], by simp⟩
            | some e2 =>
                exact ⟨[.disconnectCall, .connectCall true, .writeCall req false],
                  by simp⟩
        | false => exact ⟨[.disconnectCall, .connectCall false], by simp⟩
      · exact ⟨[.disconnectCall], by simp⟩

/-- C2: in either variant, a `send`/`_process_request` call made while
`is_connected` is false behaves as claimed: with auto-reconnect on,
exactly one `connect()` call happens before the payload is written (the
trace starts with that single connect followed at once by the write); if
that `connect()` returns false the call fails with the
"Not connected and auto-reconnect failed." error and no write is
attempted; with auto-reconnect off the call fails immediately with the
"Not connected. Call connect() first." error and no write (and no
connect) is attempted. -/
theorem c2_reconnect_on_stale (s0 : SyncState) (a0 : AsyncState) (req : String)
    (envS : SyncTransactionEnv) (envA : AsyncTransactionEnv)
    (hs : s0.is_connected = false) (ha : a0.is_connected = false) :
    ((s0.auto_reconnect = true → (syncConnect s0 envS.preConnect).2 = true →
        (syncProcessRequest s0 req envS).2.2.take 2
          = [.connectCall true, .writeCall req envS.write1.isNone])
      ∧ (s0.auto_reconnect = true → (syncConnect s0 envS.preConnect).2 = false →
          (syncProcessRequest s0 req envS).1 = .error .notConnectedAutoFailed
          ∧ (syncProcessRequest s0 req envS).2.2 = [.connectCall false])
      ∧ (s0.auto_reconnect = false →
          (syncProcessRequest s0 req envS).1 = .error .notConnected
          ∧ (syncProcessRequest s0 req envS).2.2 = []))
    ∧ ((a0.auto_reconnect = true → (asyncConnect a0 envA.preConnect).2 = true →
        (asyncProcessRequest a0 req envA).2.2.take 2
          = [.connectCall true, .writeCall req envA.write1.isNone])
      ∧ (a0.auto_reconnect = true → (asyncConnect a0 envA.preConnect).2 = false →
          (asyncProcessRequest a0 req envA).1 = .error .notConnectedAutoFailed
          ∧ (asyncProcessRequest a0 req envA).2.2 = [.connectCall false])
      ∧ (a0.auto_reconnect = false →
          (asyncProcessRequest a0 req envA).1 = .error .notConnected
          ∧ (asyncProcessRequest a0 req envA).2.2 = [])) := by
  refine ⟨⟨?_, ?_, ?_⟩, ?_, ?_, ?_⟩
  · intro hauto hpre
    cases hp : envS.preConnect with
    | greeting bs =>
        obtain ⟨suf, hsuf⟩ := syncTransactionBody_trace
          ⟨some ⟨false⟩, s0.auto_reconnect⟩ req envS [.connectCall true]
        rw [hauto] at hsuf
        simp only [syncProcessRequest, hs, hauto, hp, syncConnect]
        simp [hsuf]
    | connectFails => rw [hp] at hpre; simp [syncConnect] at hpre
    | greetingTimeout => rw [hp] at hpre; simp [syncConnect] at hpre
    | greetingError => rw [hp] at hpre; simp [syncConnect] at hpre
  · intro hauto hpre
    cases hp : envS.preConnect with
    | greeting bs => rw [hp] at hpre; simp [syncConnect] at hpre
    | connectFails => simp [syncProcessRequest, hs, hauto, hp, syncConnect]
    | greetingTimeout => simp [syncProcessRequest, hs, hauto, hp, syncConnect]
    | greetingError => simp [syncProcessRequest, hs, hauto, hp, syncConnect]
  · intro hauto
    simp [syncProcessRequest, hs, hauto]
  · intro hauto hpre
    cases hp : envA.preConnect with
    | greeting bs =>
        obtain ⟨suf, hsuf⟩ := asyncTransactionBody_trace
          ⟨some ⟨false⟩, some ⟨false⟩, some (), a0.auto_reconnect⟩ req envA
          [.connectCall true]
        rw [hauto] at hsuf
        simp only [asyncProcessRequest, ha, hauto, hp, asyncConnect]
        simp [hsuf]
    | greetingTimeout =>
        obtain ⟨suf, hsuf⟩ := asyncTransactionBody_trace
          ⟨some ⟨false⟩, some ⟨false⟩, some (), a0.auto_reconnect⟩ req envA
          [.connectCall true]
        rw [hauto] at hsuf
        simp only [asyncProcessRequest, ha, hauto, hp, asyncConnect]
        simp [hsuf]
    | openFails => rw [hp] at hpre; simp [asyncConnect] at hpre
    | greetingError => rw [hp] at hpre; simp [asyncConnect] at hpre
  · intro hauto hpre
    cases hp : envA.preConnect with
    | greeting bs => rw [hp] at hpre; simp [asyncConnect] at hpre
    | greetingTimeout => rw [hp] at hpre; simp [asyncConnect] at hpre
    | openFails => simp [asyncProcessRequest, ha, hauto, hp, asyncConnect]
    | greetingError => simp [asyncProcessRequest, ha, hauto, hp, asyncConnect]
  · intro hauto
    simp [asyncProcessRequest, ha, hauto]

/-- C2 witness: stale connections with auto-reconnect enabled, a greeting
on reconnect, and a clean first write: the trace begins with the single
reconnect followed at once by the successful write. -/
theorem c2_reconnect_on_stale_witness :
    (SyncState.is_connected ⟨none, true⟩ = false
      ∧ AsyncState.is_connected ⟨none, none, none, true⟩ = false)
    ∧ (syncProcessRequest ⟨none, true⟩ "STA."
          ⟨.greeting [], none, [], .greeting [], none, []⟩).2.2.take 2
        = [.connectCall true, .writeCall "STA." true]
    ∧ (asyncProcessRequest ⟨none, none, none, true⟩ "STA."
          ⟨.greeting [], none, [], .greeting [], none, []⟩).2.2.take 2
        = [.connectCall true, .writeCall "STA." true] :=
  ⟨⟨by decide, by decide⟩,
    (c2_reconnect_on_stale ⟨none, true⟩ ⟨none, none, none, true⟩ "STA."
      ⟨.greeting [], none, [], .greeting [], none, []⟩
      ⟨.greeting [], none, [], .greeting [], none, []⟩
      (by decide) (by decide)).1.1 rfl (by decide),
    (c2_reconnect_on_stale ⟨none, true⟩ ⟨none, none, none, true⟩ "STA."
      ⟨.greeting [], none, [], .greeting [], none, []⟩
      ⟨.greeting [], none, [], .greeting [], none, []⟩
      (by decide) (by decide)).2.1 rfl (by decide)⟩

/-- The sync transaction body performs at most two writes (the original
and one retry) and at most one reconnect. -/
theorem syncTransactionBody_counts (s1 : SyncState) (req : String)
    (env : SyncTransactionEnv) (tr : List TEvent) :
    writeCount (syncTransactionBody s1 req env tr).2.2 ≤ writeCount tr + 2
    ∧ connectCount (syncTransactionBody s1 req env tr).2.2 ≤ connectCount tr + 1 := by
  cases hw : env.write1 with
  | none =>
      constructor <;>
        simp [syncTransactionBody, hw, writeCount, connectCount, List.filter_append,
          List.filter]
  | some e =>
      simp only [syncTransactionBody, hw]
      split
      · rcases hc : syncConnect (syncDisconnect s1) env.reConnect with ⟨s3, ok⟩
        cases ok with
        | true =>
            cases hw2 : env.write2 with
            | none =>
                constructor <;>
                  simp [writeCount, connectCount, List.filter_append, List.filter]
            | some e2 =>
                constructor <;>
                  simp [writeCount, connectCount, List.filter_append, List.filter]
        | false =>
            constructor <;>
              simp [writeCount, connectCount, List.filter_append, List.filter]
      · constructor <;>
          simp [writeCount, connectCount, List.filter_append, List.filter]

/-- The async transaction body performs at most two writes (the original
and one retry) and at most one reconnect. -/
theorem asyncTransactionBody_counts (a1 : AsyncState) (req : String)
    (env : AsyncTransactionEnv) (tr : List TEvent) :
    writeCount (asyncTransactionBody a1 req env tr).2.2 ≤ writeCount tr + 2
    ∧ connectCount (asyncTransactionBody a1 req env tr).2.2 ≤ connectCount tr + 1 := by
  cases hw : env.write1 with
  | none =>
      constructor <;>
        simp [asyncTransactionBody, hw, writeCount, connectCount, List.filter_append,
          List.filter]
  | some e =>
      simp only [asyncTransactionBody, hw]
      split
      · rcases hc : asyncConnect (asyncDisconnect a1) env.reConnect with ⟨a3, ok⟩
        cases ok with
        | true =>
            cases hw2 : env.write2 with
            | none =>
                constructor <;>
                  simp [writeCount, connectCount, List.filter_append, List.filter]
            | some e2 =>
                constructor <;>
                  simp [writeCount, connectCount, List.filter_append, List.filter]
        | false =>
            constructor <;>
              simp [writeCount, connectCount, List.filter_append, List.filter]
      · constructor <;>
          simp [writeCount, connectCount, List.filter_append, List.filter]

/-- C1 counterexample: a connected sync instance with auto-reconnect on,
whose first write raises transport error 7; the reconnect succeeds but the
retried write raises transport error 9.  The call then fails with the raw
transport error 9 escaping `_process_request` unwrapped — not with a
"Connection lost during request" `RuntimeError` — refuting "if the retry
also fails ... the call fails with exactly one ConnectionLost error". -/
theorem c1_claim_counterexample :
    (syncProcessRequest ⟨some ⟨false⟩, true⟩ "STA." retryFailEnvSync).1
      = .error (.transport 9)
    ∧ PErr.isConnectionLost (.transport 9) = false
    ∧ (asyncProcessRequest ⟨some ⟨false⟩, some ⟨false⟩, some (), true⟩ "STA."
        retryFailEnvAsync).1 = .error (.transport 9) :=
  ⟨rfl, rfl, rfl⟩

/-- C1 (amended): in either variant, on a transport error during the
first write the engine disconnects, and at most one reconnect and one
retry follow (never more than two writes and one reconnect per call).
When auto-reconnect is disabled, or the reconnect fails, the call fails
with exactly one ConnectionLost error wrapping the original transport
error.  When the reconnect succeeds the write+read is retried exactly
once; if the retried write also fails, its raw transport error escapes
unwrapped (no ConnectionLost is raised), and no further retries occur.
(A transport error during the read never reaches this handler at all:
`_read_response` swallows its exceptions and returns accumulated data.) -/
theorem c1_retry_policy_amended (s0 : SyncState) (a0 : AsyncState) (req : String)
    (envS : SyncTransactionEnv) (envA : AsyncTransactionEnv) (e e2 f f2 : Nat)
    (hs : s0.is_connected = true) (hsw : envS.write1 = some e)
    (ha : a0.is_connected = true) (hal : a0.connection_lock = some ())
    (haw : envA.write1 = some f) :
    ((s0.auto_reconnect = false →
        syncProcessRequest s0 req envS
          = (.error (.connectionLost e), syncDisconnect s0,
              [.writeCall req false, .disconnectCall]))
      ∧ (s0.auto_reconnect = true →
          (syncConnect (syncDisconnect s0) envS.reConnect).2 = false →
          (syncProcessRequest s0 req envS).1 = .error (.connectionLost e)
          ∧ (syncProcessRequest s0 req envS).2.2
              = [.writeCall req false, .disconnectCall, .connectCall false])
      ∧ (s0.auto_reconnect = true →
          (syncConnect (syncDisconnect s0) envS.reConnect).2 = true →
          envS.write2 = some e2 →
          (syncProcessRequest s0 req envS).1 = .error (.transport e2)
          ∧ (syncProcessRequest s0 req envS).2.2
              = [.writeCall req false, .disconnectCall, .connectCall true,
                  .writeCall req false])
      ∧ (s0.auto_reconnect = true →
          (syncConnect (syncDisconnect s0) envS.reConnect).2 = true →
          envS.write2 = none →
          (syncProcessRequest s0 req envS).1
            = .ok (readResponseSync
                (syncConnect (syncDisconnect s0) envS.reConnect).1.connection
                envS.read2).response
          ∧ (syncProcessRequest s0 req envS).2.2
              = [.writeCall req false, .disconnectCall, .connectCall true,
                  .writeCall req true, .readCall])
      ∧ writeCount (syncProcessRequest s0 req envS).2.2 ≤ 2
      ∧ connectCount (syncProcessRequest s0 req envS).2.2 ≤ 1)
    ∧ ((a0.auto_reconnect = false →
        asyncProcessRequest a0 req envA
          = (.error (.connectionLost f), asyncDisconnect a0,
              [.writeCall req false, .disconnectCall]))
      ∧ (a0.auto_reconnect = true →
          (asyncConnect (asyncDisconnect a0) envA.reConnect).2 = false →
          (asyncProcessRequest a0 req envA).1 = .error (.connectionLost f)
          ∧ (asyncProcessRequest a0 req envA).2.2
              = [.writeCall req false, .disconnectCall, .connectCall false])
      ∧ (a0.auto_reconnect = true →
          (asyncConnect (asyncDisconnect a0) envA.reConnect).2 = true →
          envA.write2 = some f2 →
          (asyncProcessRequest a0 req envA).1 = .error (.transport f2)
          ∧ (asyncProcessRequest a0 req envA).2.2
              = [.writeCall req false, .disconnectCall, .connectCall true,
                  .writeCall req false])
      ∧ (a0.auto_reconnect = true →
          (asyncConnect (asyncDisconnect a0) envA.reConnect).2 = true →
          envA.write2 = none →
          (asyncProcessRequest a0 req envA).1
            = .ok (readResponseAsync
                (asyncConnect (asyncDisconnect a0) envA.reConnect).1.reader
                envA.read2).response
          ∧ (asyncProcessRequest a0 req envA).2.2
              = [.writeCall req false, .disconnectCall, .connectCall true,
                  .writeCall req true, .readCall])
      ∧ writeCount (asyncProcessRequest a0 req envA).2.2 ≤ 2
      ∧ connectCount (asyncProcessRequest a0 req envA).2.2 ≤ 1) := by
  have hredS : syncProcessRequest s0 req envS = syncTransactionBody s0 req envS [] := by
    simp [syncProcessRequest, hs]
  have hredA : asyncProcessRequest a0 req envA = asyncTransactionBody a0 req envA [] := by
    simp [asyncProcessRequest, ha, hal]
  constructor
  · refine ⟨?_, ?_, ?_, ?_, ?_, ?_⟩
    · intro hauto
      rw [hredS]
      simp [syncTransactionBody, hsw, syncDisconnect_auto, hauto]
    · intro hauto hcf
      rw [hredS]
      cases hr : envS.reConnect with
      | greeting bs => rw [hr] at hcf; simp [syncConnect] at hcf
      | connectFails =>
          constructor <;>
            simp [syncTransactionBody, hsw, syncDisconnect_auto, hauto, hr, syncConnect]
      | greetingTimeout =>
          constructor <;>
            simp [syncTransactionBody, hsw, syncDisconnect_auto, hauto, hr, syncConnect]
      | greetingError =>
          constructor <;>
            simp [syncTransactionBody, hsw, syncDisconnect_auto, hauto, hr, syncConnect]
    · intro hauto hct hw2
      rw [hredS]
      cases hr : envS.reConnect with
      | greeting bs =>
          constructor <;>
            simp [syncTransactionBody, hsw, syncDisconnect_auto, hauto, hr,
              syncConnect, hw2]
      | connectFails => rw [hr] at hct; simp [syncConnect] at hct
      | greetingTimeout => rw [hr] at hct; simp [syncConnect] at hct
      | greetingError => rw [hr] at hct; simp [syncConnect] at hct
    · intro hauto hct hw2
      rw [hredS]
      cases hr : envS.reConnect with
      | greeting bs =>
          constructor <;>
            simp [syncTransactionBody, hsw, syncDisconnect_auto, hauto, hr,
              syncConnect, hw2]
      | connectFails => rw [hr] at hct; simp [syncConnect] at hct
      | greetingTimeout => rw [hr] at hct; simp [syncConnect] at hct
      | greetingError => rw [hr] at hct; simp [syncConnect] at hct
    · rw [hredS]
      have h := (syncTransactionBody_counts s0 req envS []).1
      simpa [writeCount] using h
    · rw [hredS]
      have h := (syncTransactionBody_counts s0 req envS []).2
      simpa [connectCount] using h
  · refine ⟨?_, ?_, ?_, ?_, ?_, ?_⟩
    · intro hauto
      rw [hredA]
      simp [asyncTransactionBody, haw, asyncDisconnect_auto, hauto]
    · intro hauto hcf
      rw [hredA]
      cases hr : envA.reConnect with
      | greeting bs => rw [hr] at hcf; simp [asyncConnect] at hcf
      | greetingTimeout => rw [hr] at hcf; simp [asyncConnect] at hcf
      | openFails =>
          constructor <;>
            simp [asyncTransactionBody, haw, asyncDisconnect_auto, hauto, hr,
              asyncConnect]
      | greetingError =>
          constructor <;>
            simp [asyncTransactionBody, haw, asyncDisconnect_auto, hauto, hr,
              asyncConnect]
    · intro hauto hct hw2
      rw [hredA]
      cases hr : envA.reConnect with
      | greeting bs =>
          constructor <;>
            simp [asyncTransactionBody, haw, asyncDisconnect_auto, hauto, hr,
              asyncConnect, hw2]
      | greetingTimeout =>
          constructor <;>
            simp [asyncTransactionBody, haw, asyncDisconnect_auto, hauto, hr,
              asyncConnect, hw2]
      | openFails => rw [hr] at hct; simp [asyncConnect] at hct
      | greetingError => rw [hr] at hct; simp [asyncConnect] at hct
    · intro hauto hct hw2
      rw [hredA]
      cases hr : envA.reConnect with
      | greeting bs =>
          constructor <;>
            simp [asyncTransactionBody, haw, asyncDisconnect_auto, hauto, hr,
              asyncConnect, hw2]
      | greetingTimeout =>
          constructor <;>
            simp [asyncTransactionBody, haw, asyncDisconnect_auto, hauto, hr,
              asyncConnect, hw2]
      | openFails => rw [hr] at hct; simp [asyncConnect] at hct
      | greetingError => rw [hr] at hct; simp [asyncConnect] at hct
    · rw [hredA]
      have h := (asyncTransactionBody_counts a0 req envA []).1
      simpa [writeCount] using h
    · rw [hredA]
      have h := (asyncTransactionBody_counts a0 req envA []).2
      simpa [connectCount] using h

/-- C1 witness: the amended policy applied on the failing-retry
environment, extracting the raw-transport-error outcome and the
at-most-one-retry bounds. -/
theorem c1_retry_policy_amended_witness :
    (SyncState.is_connected ⟨some ⟨false⟩, true⟩ = true
      ∧ SyncTransactionEnv.write1 retryFailEnvSync = some 7
      ∧ AsyncState.is_connected ⟨some ⟨false⟩, some ⟨false⟩, some (), true⟩ = true
      ∧ AsyncState.connection_lock ⟨some ⟨false⟩, some ⟨false⟩, some (), true⟩ = some ()
      ∧ AsyncTransactionEnv.write1 retryFailEnvAsync = some 7)
    ∧ ((syncProcessRequest ⟨some ⟨false⟩, true⟩ "STA." retryFailEnvSync).1
        = .error (.transport 9)
      ∧ (syncProcessRequest ⟨some ⟨false⟩, true⟩ "STA." retryFailEnvSync).2.2
          = [.writeCall "STA." false, .disconnectCall, .connectCall true,
              .writeCall "STA." false])
    ∧ writeCount (syncProcessRequest ⟨some ⟨false⟩, true⟩ "STA." retryFailEnvSync).2.2 ≤ 2
    ∧ connectCount
        (asyncProcessRequest ⟨some ⟨false⟩, some ⟨false⟩, some (), true⟩ "STA."
          retryFailEnvAsync).2.2 ≤ 1 :=
  ⟨⟨by decide, by decide, by decide, by decide, by decide⟩,
    (c1_retry_policy_amended ⟨some ⟨false⟩, true⟩
      ⟨some ⟨false⟩, some ⟨false⟩, some (), true⟩ "STA." retryFailEnvSync
      retryFailEnvAsync 7 9 7 9 (by decide) (by decide) (by decide) (by decide)
      (by decide)).1.2.2.1 rfl (by decide) (by decide),
    (c1_retry_policy_amended ⟨some ⟨false⟩, true⟩
      ⟨some ⟨false⟩, some ⟨false⟩, some (), true⟩ "STA." retryFailEnvSync
      retryFailEnvAsync 7 9 7 9 (by decide) (by decide) (by decide) (by decide)
      (by decide)).1.2.2.2.2.1,
    (c1_retry_policy_amended ⟨some ⟨false⟩, true⟩
      ⟨some ⟨false⟩, some ⟨false⟩, some (), true⟩ "STA." retryFailEnvSync
      retryFailEnvAsync 7 9 7 9 (by decide) (by decide) (by decide) (by decide)
      (by decide)).2.2.2.2.2.2⟩

/-- C9 counterexample: the synchronous `_process_request` holds no lock
(its action sequence is just write-then-read), so the interleaving in
which both writes precede both reads is a lock-valid schedule of two
concurrent sync `send()` calls — and it is not serialized: task 2's write
is observed before task 1's read completes.  This refutes the claim for
"both the sync and async variant". -/
theorem c9_claim_counterexample :
    [LAct.write 1, .write 2, .read 1, .read 2]
        ∈ merges (syncSendActions 1) (syncSendActions 2)
    ∧ lockValid [LAct.write 1, .write 2, .read 1, .read 2] = true
    ∧ serialized [LAct.write 1, .write 2, .read 1, .read 2] = false := by
  decide

/-- C9 (amended): only the async variant serializes transactions — its
`asyncio.Lock` covers write+read as one unit, so in every lock-valid
interleaving of two concurrent async `send()` calls the second call's
write is observed strictly after the first call's complete read (or vice
versa).  The sync variant holds no mutual-exclusion primitive, so two
concurrent sync `send()` calls can interleave their writes and reads. -/
theorem c9_async_exclusive_amended :
    ∀ tr ∈ merges (asyncSendActions 1) (asyncSendActions 2),
      lockValid tr = true → serialized tr = true := by
  decide

/-- C9 witness: the fully sequential schedule of the two async calls. -/
theorem c9_async_exclusive_amended_witness :
    ([LAct.acq 1, .write 1, .read 1, .rel 1, .acq 2, .write 2, .read 2, .rel 2]
        ∈ merges (asyncSendActions 1) (asyncSendActions 2)
      ∧ lockValid
          [LAct.acq 1, .write 1, .read 1, .rel 1, .acq 2, .write 2, .read 2, .rel 2]
          = true)
    ∧ serialized
        [LAct.acq 1, .write 1, .read 1, .rel 1, .acq 2, .write 2, .read 2, .rel 2]
        = true :=
  ⟨⟨by decide, by decide⟩,
    c9_async_exclusive_amended
      [LAct.acq 1, .write 1, .read 1, .rel 1, .acq 2, .write 2, .read 2, .rel 2]
      (by decide) (by decide)⟩

end HdmiMatrix
